import Mathlib

/-!
Shallow embedding of the AI-powered banking system (Python sources under
`app/` and `main.py`) together with proofs about its specification.

Conventions of the embedding:
* Python `float` arithmetic is modelled over `ℚ` (the programs only ever
  add, subtract, multiply and divide decimal literals);
* Python dictionaries with heterogeneous optional keys become structures
  of `Option` fields, or association lists when the key set is open;
* `datetime.now()` values are passed in explicitly (only the hour is ever
  inspected) and timestamps stored into records are kept opaque;
* `random.random() < 0.3` draws are passed in as an explicit boolean
  parameter, taken at the single program point that consumes them.
-/

namespace Banking

/-! ## Transaction (`app/models/transaction.py`) -/

/-- Transaction status constants (`STATUS_PENDING`, ... in the Python class). -/
inductive TStatus
  | pending
  | completed
  | failed
  | blocked
  | under_review
deriving DecidableEq, Repr

/-- Values stored in the transaction metadata dictionary.  Wall-clock
timestamps are opaque (`MetaVal.timestamp`). -/
inductive MetaVal
  | timestamp
  | text (s : String)
  | num (q : ℚ)
deriving DecidableEq, Repr

/-- `d[k] = v` on an association-list model of a Python dict:
overwrite the binding when the key exists, append it otherwise. -/
def setAssoc {α : Type} : List (String × α) → String → α → List (String × α)
  | [], k, v => [(k, v)]
  | (k', v') :: rest, k, v =>
      if k' = k then (k, v) :: rest else (k', v') :: setAssoc rest k v

/-- `d.get(k)` on an association-list model of a Python dict. -/
def lookupAssoc {α : Type} : List (String × α) → String → Option α
  | [], _ => none
  | (k', v) :: rest, k => if k' = k then some v else lookupAssoc rest k

/-- The mutable fields of a `Transaction` that its transition methods read
or write (`transaction_id`/`timestamp` are opaque identifiers and omitted). -/
structure Transaction where
  sender_id : Int
  receiver_id : Int
  amount : ℚ
  status : TStatus
  description : String
  risk_score : ℚ
  metadata : List (String × MetaVal)
deriving DecidableEq, Repr

/-- `Transaction.complete`. -/
def Transaction.complete (t : Transaction) : Bool × Transaction :=
  if t.status = TStatus.pending then
    (true, { t with
      status := TStatus.completed
      metadata := setAssoc t.metadata "completed_at" MetaVal.timestamp })
  else (false, t)

/-- `Transaction.fail`. -/
def Transaction.fail (t : Transaction) (reason : String) : Bool × Transaction :=
  if t.status ≠ TStatus.completed then
    (true, { t with
      status := TStatus.failed
      metadata := setAssoc (setAssoc t.metadata "failed_at" MetaVal.timestamp)
        "failure_reason" (MetaVal.text reason) })
  else (false, t)

/-- `Transaction.block`. -/
def Transaction.block (t : Transaction) (reason : String) : Bool × Transaction :=
  if t.status = TStatus.pending then
    (true, { t with
      status := TStatus.blocked
      metadata := setAssoc (setAssoc t.metadata "blocked_at" MetaVal.timestamp)
        "block_reason" (MetaVal.text reason) })
  else (false, t)

/-- `Transaction.flag_for_review`. -/
def Transaction.flag_for_review (t : Transaction) (risk : ℚ) : Bool × Transaction :=
  if t.status = TStatus.pending then
    (true, { t with
      status := TStatus.under_review
      risk_score := risk
      metadata := setAssoc (setAssoc t.metadata "flagged_at" MetaVal.timestamp)
        "risk_score" (MetaVal.num risk) })
  else (false, t)

/-! ## Authentication (`app/security/authentication_system.py`) -/

/-- Python truthiness test `not user_data[k]` for a possibly absent string
field: the key is missing or its value is the empty string. -/
def missingOrEmpty : Option String → Bool
  | none => true
  | some s => s.isEmpty

/-- `AuthenticationSystem.evaluate_risk`: additive penalties for a missing
or empty `face_data`, a missing or empty `typing_pattern`, and a login hour
in the unusual window `2 <= hour <= 5`, capped at `1.0`. -/
def evaluate_risk (face typing : Option String) (hour : Nat) : ℚ :=
  let r0 : ℚ := 0
  let r1 := if missingOrEmpty face then r0 + 0.3 else r0
  let r2 := if missingOrEmpty typing then r1 + 0.2 else r1
  let r3 := if 2 ≤ hour ∧ hour ≤ 5 then r2 + 0.2 else r2
  min r3 1

/-- `AuthenticationSystem.authenticate`, reduced to the data the caller
sees: `(authentication_successful, additional_verification_required,
risk_level)`. -/
def authenticate (face typing : Option String) (hour : Nat) : Bool × Bool × ℚ :=
  let r := evaluate_risk face typing hour
  (decide (r < 0.7), decide (0.3 ≤ r ∧ r < 0.7), r)

/-! ## AI risk aggregation (`app/ai/ai_engine.py`, `predict_risk_level`) -/

/-- The fixed `weights` table of `AIEngine.predict_risk_level`; `none` for
a factor name outside the table (the loop skips such entries). -/
def weightOf (factor : String) : Option ℚ :=
  if factor = "face" then some 0.35
  else if factor = "typing" then some 0.25
  else if factor = "location" then some 0.2
  else if factor = "device" then some 0.2
  else none

/-- Per-factor risk: confidence is inverted for `face`/`typing`, the score
is used directly otherwise. -/
def riskOf (factor : String) (score : ℚ) : ℚ :=
  if factor = "face" ∨ factor = "typing" then 1 - score else score

/-- One iteration of the `for factor, (_, score) in verification_results`
loop, accumulating `(total_risk, total_weight)`. -/
def riskStep (acc : ℚ × ℚ) (e : String × Bool × ℚ) : ℚ × ℚ :=
  match weightOf e.1 with
  | none => acc
  | some w => (acc.1 + riskOf e.1 e.2.2 * w, acc.2 + w)

/-- `AIEngine.predict_risk_level`.  The verification-results dictionary is
modelled as an association list of `(factor, (result, score))` entries;
the fold accumulates `(total_risk, total_weight)`. -/
def predict_risk_level (results : List (String × Bool × ℚ)) : ℚ :=
  if (results.foldl riskStep (0, 0)).2 = 0 then 0.9
  else (results.foldl riskStep (0, 0)).1 / (results.foldl riskStep (0, 0)).2

/-- Reference aggregator, following the specification text: a weighted
average with fixed weights face `0.35`, typing `0.25`, location `0.20`,
device `0.20`; a face or typing entry contributes `(1 − score) × weight`,
a location or device entry contributes `score × weight`; only factors
present contribute, the normalizing denominator is the sum of the present
factors' weights, and with no factors present the result is the sentinel
`0.9`. -/
def aggregate_spec (face typing location device : Option ℚ) : ℚ :=
  let entries : List (ℚ × ℚ) :=
    (match face with | some c => [((1 - c) * 0.35, 0.35)] | none => []) ++
    (match typing with | some c => [((1 - c) * 0.25, 0.25)] | none => []) ++
    (match location with | some r => [(r * 0.2, 0.2)] | none => []) ++
    (match device with | some r => [(r * 0.2, 0.2)] | none => [])
  let total_risk := (entries.map Prod.fst).sum
  let total_weight := (entries.map Prod.snd).sum
  if total_weight = 0 then 0.9 else total_risk / total_weight

/-- The verification-results dictionary holding exactly the recognized
factors that are present, with the given scores. -/
def buildResults (face typing location device : Option ℚ) :
    List (String × Bool × ℚ) :=
  (match face with | some c => [("face", true, c)] | none => []) ++
  (match typing with | some c => [("typing", true, c)] | none => []) ++
  (match location with | some r => [("location", true, r)] | none => []) ++
  (match device with | some r => [("device", true, r)] | none => [])

/-! ## Proactive defense (`app/security/proactive_defense_system.py`) -/

/-- The `activity_data` dictionary fields that `detect_threat` inspects.
`transaction_amount` models `activity_data['transaction'].get('amount', 0)`
when the `'transaction'` key is present (a transaction dictionary without
an amount behaves like amount `0`). -/
structure ActivityData where
  login_attempts : Option Int
  transaction_amount : Option ℚ
  ip_address : Option String
deriving DecidableEq, Repr

/-- The evidence string attached to `threat_details`, kept as structured
data (it is an f-string over the shown value in the Python code). -/
inductive Evidence
  | bruteForce (attempts : Int)
  | unusualTransaction (amount : ℚ)
  | blockedIpAccess (ip : String)
deriving DecidableEq, Repr

/-- The `threat_details` dictionary: every firing rule writes all three
keys, so the record of the last firing rule survives. -/
structure ThreatDetails where
  threatType : String
  severity : String
  evidence : Evidence
deriving DecidableEq, Repr

/-- Entries of `security_alerts` (timestamps are opaque and omitted):
either a threat alert from `detect_threat` or a block action from
`block_access`. -/
inductive SecurityAlert
  | threat (threat_level : Nat) (details : ThreatDetails) (status : String)
  | blockAction (ip_address : Option String) (status : String)
deriving DecidableEq, Repr

/-- The mutable state of `ProactiveDefenseSystem` (`last_scan_time` is
opaque wall-clock data and omitted). -/
structure DefenseState where
  threat_level : Nat
  response_plan : String
  active_threats : List (ThreatDetails × ActivityData)
  blocked_ips : List String
  security_alerts : List SecurityAlert
deriving DecidableEq, Repr

/-- `ProactiveDefenseSystem.__init__`. -/
def initDefense : DefenseState :=
  ⟨1, "Standard monitoring", [], [], []⟩

/-- `_update_response_plan`: the plan for the given threat level, keeping
the current plan when the level is outside `1..4`. -/
def response_plan_for (level : Nat) (current : String) : String :=
  if level = 1 then "Standard monitoring"
  else if level = 2 then "Enhanced monitoring, notify security team"
  else if level = 3 then
    "Block suspicious activity, require additional authentication, alert security team"
  else if level = 4 then
    "Lockdown affected systems, block all suspicious IPs, immediate security team response"
  else current

/-- Result of `detect_threat`: the returned boolean together with the
fields of the returned info dictionary, and the state after the call. -/
structure DetectResult where
  detected : Bool
  info_threat_level : Nat
  info_details : Option ThreatDetails
  info_response_plan : String
  state : DefenseState
deriving DecidableEq, Repr

/-- The login-attempts check of `detect_threat`: more than 5 attempts set
the details and assign level High (3); otherwise nothing is detected yet
and the level is the current one. -/
def scanLogin (s : DefenseState) (a : ActivityData) : Option ThreatDetails × Nat :=
  match a.login_attempts with
  | some n =>
      if 5 < n then
        (some ⟨"brute_force_attempt", "high", Evidence.bruteForce n⟩, 3)
      else (none, s.threat_level)
  | none => (none, s.threat_level)

/-- The transaction check of `detect_threat`: an amount above 10000 whose
random draw flags it overwrites the details and assigns level Medium (2);
otherwise the previous accumulator is kept. -/
def scanTxn (prev : Option ThreatDetails × Nat) (a : ActivityData)
    (flagged : Bool) : Option ThreatDetails × Nat :=
  match a.transaction_amount with
  | some amt =>
      if 10000 < amt then
        if flagged then
          (some ⟨"unusual_transaction", "medium", Evidence.unusualTransaction amt⟩, 2)
        else prev
      else prev
  | none => prev

/-- The suspicious-IP check of `detect_threat`: an IP on the block list
overwrites the details and assigns level Critical (4). -/
def scanIp (prev : Option ThreatDetails × Nat) (s : DefenseState)
    (a : ActivityData) : Option ThreatDetails × Nat :=
  match a.ip_address with
  | some ip =>
      if ip ∈ s.blocked_ips then
        (some ⟨"blocked_ip_access", "critical", Evidence.blockedIpAccess ip⟩, 4)
      else prev
  | none => prev

/-- `ProactiveDefenseSystem.detect_threat`.  `flagged` is the outcome of
the one `random.random() < 0.3` draw, consumed only when a transaction
above `10000` is present.  The three checks run in order (login attempts,
transaction, IP address); when a threat was detected the state is
updated and the threat and a new alert are recorded. -/
def detect_threat (s : DefenseState) (a : ActivityData) (flagged : Bool) :
    DetectResult :=
  match scanIp (scanTxn (scanLogin s a) a flagged) s a with
  | (some det, lvl) =>
      let plan := response_plan_for lvl s.response_plan
      ⟨true, lvl, some det, plan,
        { s with
          threat_level := lvl
          response_plan := plan
          active_threats := s.active_threats ++ [(det, a)]
          security_alerts := s.security_alerts ++ [SecurityAlert.threat lvl det "new"] }⟩
  | (none, _) => ⟨false, s.threat_level, none, s.response_plan, s⟩

/-- `ProactiveDefenseSystem.block_access`, restricted to the fields the
embedding keeps: append the IP to `blocked_ips` when present and not yet
blocked, and record a resolved block-action alert. -/
def block_access (s : DefenseState) (ip : Option String) : Bool × DefenseState :=
  let s1 :=
    match ip with
    | some i =>
        if i ∈ s.blocked_ips then s
        else { s with blocked_ips := s.blocked_ips ++ [i] }
    | none => s
  (true, { s1 with
    security_alerts := s1.security_alerts ++ [SecurityAlert.blockAction ip "resolved"] })

/-- The login-attempts rule fires: more than 5 attempts reported. -/
def loginRuleFires (a : ActivityData) : Bool :=
  match a.login_attempts with
  | some n => decide (5 < n)
  | none => false

/-- The transaction rule fires: amount above 10000 and the random draw
flags it. -/
def txnRuleFires (a : ActivityData) (flagged : Bool) : Bool :=
  match a.transaction_amount with
  | some amt => decide (10000 < amt) && flagged
  | none => false

/-- The blocked-IP rule fires: the reported IP is in the block list. -/
def ipRuleFires (a : ActivityData) (blocked : List String) : Bool :=
  match a.ip_address with
  | some ip => decide (ip ∈ blocked)
  | none => false

/-! ## User database (`app/models/user_database.py`) -/

/-- A historical login record, restricted to the fields
`compare_with_current` reads: `tsHour` is the hour of the record's
`timestamp` when that key is present and parseable (`none` models a
missing or unparseable timestamp, which the loop skips), and the optional
`location` string. -/
structure LoginRecord where
  tsHour : Option Nat
  location : Option String
deriving DecidableEq, Repr

/-- The current login data passed to `compare_with_current` (only the
`device_info` and `location` keys are read). -/
structure CurrentData where
  device_info : Option String
  location : Option String
deriving DecidableEq, Repr

/-- `needle.data` is a contiguous run of `hay` starting at its front
(Python `startswith` on the character lists). -/
def leadsWith : List Char → List Char → Bool
  | [], _ => true
  | _ :: _, [] => false
  | a :: as, b :: bs => a = b && leadsWith as bs

/-- Python's substring test `needle in hay` for strings. -/
def substrIn (needle hay : String) : Bool :=
  (List.range (hay.data.length + 1)).any
    (fun i => leadsWith needle.data (hay.data.drop i))

/-- The `UserDatabase` state that `add_trusted_device` and
`compare_with_current` touch.  User ids are the stringified keys of
`self.users`; the nested per-user dictionaries are association lists. -/
structure UserDatabase where
  users : List String
  trusted_devices : List (String × List String)
  historical_logins : List (String × List LoginRecord)
deriving DecidableEq, Repr

/-- `UserDatabase.add_trusted_device`: fails when the user is unknown;
otherwise ensures the user's trusted list exists and appends the device
when it is not already present; returns `True` in both cases. -/
def add_trusted_device (db : UserDatabase) (uid device : String) :
    Bool × UserDatabase :=
  if uid ∈ db.users then
    let cur := (lookupAssoc db.trusted_devices uid).getD []
    let newList := if device ∈ cur then cur else cur ++ [device]
    (true, { db with trusted_devices := setAssoc db.trusted_devices uid newList })
  else (false, db)

/-- Result dictionary of `compare_with_current` (`error = true` models the
`{"error": ..., "anomalies": []}` return on an unknown user). -/
structure ComparisonResult where
  error : Bool
  anomalies : List String
  anomaly_count : Nat
  is_suspicious : Bool
deriving DecidableEq, Repr

/-- The trusted-device check of `compare_with_current`: when
`device_info` is present and is a substring of none of the user's trusted
devices, the `"Untrusted device"` anomaly is produced. -/
def deviceCheck (db : UserDatabase) (uid : String) (current : CurrentData) :
    List String :=
  match current.device_info with
  | some d =>
      let trusted :=
        match lookupAssoc db.trusted_devices uid with
        | some l => l.any (fun td => substrIn d td)
        | none => false
      if trusted then [] else ["Untrusted device"]
  | none => []

/-- The location check of `compare_with_current`: when `location` is
present, the user has a history entry, no historical record carries
exactly the current location string and the history is non-empty, the
`"Unusual location"` anomaly is produced. -/
def locationCheck (db : UserDatabase) (uid : String) (current : CurrentData) :
    List String :=
  match current.location with
  | some loc =>
      match lookupAssoc db.historical_logins uid with
      | some hist =>
          let locationMatches := hist.any (fun r => r.location = some loc)
          if ¬locationMatches ∧ 0 < hist.length then ["Unusual location"]
          else []
      | none => []
  | none => []

/-- The login-time check of `compare_with_current`: with a non-empty
history, the records with parseable timestamps are bucketed by hour; when
the bucket table is non-empty, the current hour occurs in it and its
count is below 2, the `"Unusual login time"` anomaly is produced. -/
def timeCheck (db : UserDatabase) (uid : String) (currentHour : Nat) :
    List String :=
  match lookupAssoc db.historical_logins uid with
  | some hist =>
      if 0 < hist.length then
        let hs := hist.filterMap (fun r => r.tsHour)
        if hs ≠ [] ∧ currentHour ∈ hs then
          if hs.count currentHour < 2 then ["Unusual login time"] else []
        else []
      else []
  | none => []

/-- `UserDatabase.compare_with_current`.  `currentHour` is
`datetime.now().hour` at the time of the call; the three checks append
their anomalies in order (device, location, time). -/
def compare_with_current (db : UserDatabase) (uid : String)
    (current : CurrentData) (currentHour : Nat) : ComparisonResult :=
  if uid ∈ db.users then
    let anoms := deviceCheck db uid current ++ locationCheck db uid current ++
      timeCheck db uid currentHour
    ⟨false, anoms, anoms.length, decide (1 < anoms.length)⟩
  else ⟨true, [], 0, false⟩

end Banking

namespace Banking

/-! ## Theorems: transaction lifecycle (C4) -/

/-- C4: `complete`, `block` and `flag_for_review` succeed exactly from
`pending`; `fail` succeeds exactly from a non-`completed` status; a
`pending` transaction completes to `completed`; and once `completed`
every transition returns `false` and leaves the transaction unchanged. -/
theorem transaction_lifecycle (t : Transaction) (reason : String) (risk : ℚ) :
    (t.complete.1 = true ↔ t.status = TStatus.pending) ∧
    ((t.block reason).1 = true ↔ t.status = TStatus.pending) ∧
    ((t.flag_for_review risk).1 = true ↔ t.status = TStatus.pending) ∧
    ((t.fail reason).1 = true ↔ t.status ≠ TStatus.completed) ∧
    (t.status = TStatus.pending → t.complete.2.status = TStatus.completed) ∧
    (t.status = TStatus.completed →
      t.complete = (false, t) ∧ t.fail reason = (false, t) ∧
      t.block reason = (false, t) ∧ t.flag_for_review risk = (false, t)) := by
  unfold Transaction.complete Transaction.fail Transaction.block
    Transaction.flag_for_review
  rcases t with ⟨sid, rid, amt, st, d, rs, m⟩
  cases st <;> simp

/-- Witness for C4 at concrete transactions: one already `completed`
(no transition changes it) and one `pending` (completing sets
`completed`). -/
theorem transaction_lifecycle_witness :
    ((Transaction.mk 1 2 100 TStatus.completed "" 0 []).status = TStatus.completed ∧
      (Transaction.mk 1 2 100 TStatus.completed "" 0 []).complete =
        (false, Transaction.mk 1 2 100 TStatus.completed "" 0 [])) ∧
    ((Transaction.mk 1 2 100 TStatus.pending "" 0 []).status = TStatus.pending ∧
      (Transaction.mk 1 2 100 TStatus.pending "" 0 []).complete.2.status =
        TStatus.completed) :=
  ⟨⟨rfl, ((transaction_lifecycle (Transaction.mk 1 2 100 TStatus.completed "" 0 [])
      "r" 0).2.2.2.2.2 rfl).1⟩,
   ⟨rfl, (transaction_lifecycle (Transaction.mk 1 2 100 TStatus.pending "" 0 [])
      "r" 0).2.2.2.2.1 rfl⟩⟩

/-! ## Theorems: risk evaluation and decision bands (C5, C2) -/

/-- C5: the evaluator's risk is exactly the additive sum of the three
independent penalties clamped at `1`, and the concrete context with both
biometric samples missing at 3 AM yields risk `0.7` and a denied
authentication. -/
theorem evaluate_risk_additive :
    (∀ (face typing : Option String) (hour : Nat),
      evaluate_risk face typing hour =
        min ((if missingOrEmpty face then (0.3 : ℚ) else 0) +
             (if missingOrEmpty typing then (0.2 : ℚ) else 0) +
             (if 2 ≤ hour ∧ hour ≤ 5 then (0.2 : ℚ) else 0)) 1) ∧
    evaluate_risk none none 3 = 0.7 ∧
    (authenticate none none 3).1 = false := by
  refine ⟨fun face typing hour => ?_, by norm_num [evaluate_risk, missingOrEmpty],
    by norm_num [authenticate, evaluate_risk, missingOrEmpty]⟩
  unfold evaluate_risk
  split_ifs <;> norm_num

lemma face_not_empty : ("face".isEmpty) = false := rfl

/-- C2 (counterexample): a context whose risk is `0.4 < 0.5` — facial data
present, typing sample missing, ordinary computation at 3 AM — still has
`additional_verification_required = true`, so risk below `0.5` does not
yield Allow-with-no-additional-verification. -/
theorem decision_bands_counterexample :
    evaluate_risk (some "face") none 3 = 0.4 ∧ (0.4 : ℚ) < 0.5 ∧
    (authenticate (some "face") none 3).2.1 = true := by
  refine ⟨by norm_num [evaluate_risk, missingOrEmpty, face_not_empty], by norm_num, ?_⟩
  norm_num [authenticate, evaluate_risk, missingOrEmpty, face_not_empty]

/-- C2 (amended): authentication succeeds with no additional verification
exactly when risk `< 0.3`; succeeds with additional out-of-band
verification required exactly when `0.3 ≤ risk < 0.7`; and fails exactly
when `risk ≥ 0.7`. -/
theorem decision_bands (face typing : Option String) (hour : Nat) :
    ((authenticate face typing hour).1 = true ∧
        (authenticate face typing hour).2.1 = false ↔
      evaluate_risk face typing hour < 0.3) ∧
    ((authenticate face typing hour).1 = true ∧
        (authenticate face typing hour).2.1 = true ↔
      0.3 ≤ evaluate_risk face typing hour ∧
        evaluate_risk face typing hour < 0.7) ∧
    ((authenticate face typing hour).1 = false ↔
      0.7 ≤ evaluate_risk face typing hour) := by
  simp only [authenticate, decide_eq_true_eq, decide_eq_false_iff_not]
  refine ⟨⟨?_, ?_⟩, ⟨fun h => h.2, fun h => ⟨h.2, h⟩⟩, not_lt⟩
  · rintro ⟨h1, h2⟩
    by_contra h
    exact h2 ⟨not_lt.mp h, h1⟩
  · intro h
    exact ⟨h.trans (by norm_num), fun hc => absurd h (not_lt.mpr hc.1)⟩

/-! ## Theorems: AI risk aggregation (C3, C10) -/

lemma weightOf_pos (f : String) (w : ℚ) (h : weightOf f = some w) : 0 < w := by
  unfold weightOf at h
  split_ifs at h <;> injection h with h <;> rw [← h] <;> norm_num

lemma riskOf_mem_unit (f : String) (s : ℚ) (h0 : 0 ≤ s) (h1 : s ≤ 1) :
    0 ≤ riskOf f s ∧ riskOf f s ≤ 1 := by
  unfold riskOf
  split_ifs <;> constructor <;> linarith

lemma riskStep_fold_bounds (l : List (String × Bool × ℚ))
    (hl : ∀ e ∈ l, 0 ≤ e.2.2 ∧ e.2.2 ≤ 1) (a b : ℚ) (ha : 0 ≤ a) (hab : a ≤ b) :
    0 ≤ (l.foldl riskStep (a, b)).1 ∧
      (l.foldl riskStep (a, b)).1 ≤ (l.foldl riskStep (a, b)).2 := by
  induction l generalizing a b with
  | nil => exact ⟨ha, hab⟩
  | cons e rest ih =>
    have he := hl e (List.mem_cons_self e rest)
    have hrest : ∀ x ∈ rest, 0 ≤ x.2.2 ∧ x.2.2 ≤ 1 :=
      fun x hx => hl x (List.mem_cons_of_mem e hx)
    simp only [List.foldl_cons]
    rcases hw : weightOf e.1 with _ | w
    · have hstep : riskStep (a, b) e = (a, b) := by simp [riskStep, hw]
      rw [hstep]
      exact ih hrest a b ha hab
    · have hwpos := weightOf_pos e.1 w hw
      have hr := riskOf_mem_unit e.1 e.2.2 he.1 he.2
      have hstep : riskStep (a, b) e = (a + riskOf e.1 e.2.2 * w, b + w) := by
        simp [riskStep, hw]
      rw [hstep]
      refine ih hrest _ _ (add_nonneg ha (mul_nonneg hr.1 hwpos.le)) ?_
      exact add_le_add hab (mul_le_of_le_one_left hwpos.le hr.2)

/-- C10: with all scores in `[0,1]` the aggregated risk lies in `[0,1]`,
and an entry whose factor key is none of `face`, `typing`, `location`,
`device` has no effect on the result wherever it sits in the dictionary. -/
theorem predict_risk_level_bounds_frame :
    (∀ results : List (String × Bool × ℚ),
      (∀ e ∈ results, 0 ≤ e.2.2 ∧ e.2.2 ≤ 1) →
      0 ≤ predict_risk_level results ∧ predict_risk_level results ≤ 1) ∧
    (∀ (l₁ l₂ : List (String × Bool × ℚ)) (k : String) (b : Bool) (s : ℚ),
      k ≠ "face" → k ≠ "typing" → k ≠ "location" → k ≠ "device" →
      predict_risk_level (l₁ ++ (k, b, s) :: l₂) =
        predict_risk_level (l₁ ++ l₂)) := by
  constructor
  · intro results h
    have hb := riskStep_fold_bounds results h 0 0 le_rfl le_rfl
    unfold predict_risk_level
    split_ifs with h0
    · norm_num
    · have hpos : 0 < (results.foldl riskStep (0, 0)).2 :=
        lt_of_le_of_ne (hb.1.trans hb.2) (Ne.symm h0)
      exact ⟨div_nonneg hb.1 hpos.le, (div_le_one hpos).mpr hb.2⟩
  · intro l₁ l₂ k b s h1 h2 h3 h4
    have hw : weightOf k = none := by simp [weightOf, h1, h2, h3, h4]
    have key : List.foldl riskStep (0, 0) (l₁ ++ (k, b, s) :: l₂) =
        List.foldl riskStep (0, 0) (l₁ ++ l₂) := by
      rw [List.foldl_append, List.foldl_append, List.foldl_cons]
      congr 1
      simp [riskStep, hw]
    unfold predict_risk_level
    rw [key]

/-- Witness for C10 at a concrete dictionary (score `1/2` for `face`) and
a concrete unrecognized entry (`"mouse"`). -/
theorem predict_risk_level_bounds_frame_witness :
    ((∀ e ∈ ([("face", true, (1 : ℚ)/2)] : List (String × Bool × ℚ)),
        0 ≤ e.2.2 ∧ e.2.2 ≤ 1) ∧
      0 ≤ predict_risk_level [("face", true, (1 : ℚ)/2)] ∧
      predict_risk_level [("face", true, (1 : ℚ)/2)] ≤ 1) ∧
    (("mouse" : String) ≠ "face" ∧
      predict_risk_level ([] ++ ("mouse", true, (0 : ℚ)) :: []) =
        predict_risk_level (([] : List (String × Bool × ℚ)) ++ [])) := by
  refine ⟨⟨?_, predict_risk_level_bounds_frame.1 _ ?_⟩,
    ⟨by decide, predict_risk_level_bounds_frame.2 [] [] "mouse" true 0
      (by decide) (by decide) (by decide) (by decide)⟩⟩ <;>
  · intro e he
    simp only [List.mem_singleton] at he
    subst he
    norm_num

lemma riskStep_face (acc : ℚ × ℚ) (b : Bool) (s : ℚ) :
    riskStep acc ("face", b, s) = (acc.1 + (1 - s) * 0.35, acc.2 + 0.35) := by
  simp [riskStep, weightOf, riskOf]

lemma riskStep_typing (acc : ℚ × ℚ) (b : Bool) (s : ℚ) :
    riskStep acc ("typing", b, s) = (acc.1 + (1 - s) * 0.25, acc.2 + 0.25) := by
  simp [riskStep, weightOf, riskOf]

lemma riskStep_location (acc : ℚ × ℚ) (b : Bool) (s : ℚ) :
    riskStep acc ("location", b, s) = (acc.1 + s * 0.2, acc.2 + 0.2) := by
  simp [riskStep, weightOf, riskOf]

lemma riskStep_device (acc : ℚ × ℚ) (b : Bool) (s : ℚ) :
    riskStep acc ("device", b, s) = (acc.1 + s * 0.2, acc.2 + 0.2) := by
  simp [riskStep, weightOf, riskOf]

/-- C3: `predict_risk_level` coincides with the specification's reference
aggregator on every pattern of present factors, and takes the stated
values on the all-perfect, all-worst, and empty dictionaries. -/
theorem predict_risk_level_refines_spec :
    (∀ face typing location device : Option ℚ,
      predict_risk_level (buildResults face typing location device) =
        aggregate_spec face typing location device) ∧
    predict_risk_level
      [("face", true, 1), ("typing", true, 1),
       ("location", true, 0), ("device", true, 0)] = 0 ∧
    predict_risk_level
      [("face", false, 0), ("typing", false, 0),
       ("location", false, 1), ("device", false, 1)] = 1 ∧
    predict_risk_level [] = 0.9 := by
  refine ⟨?_, ?_, ?_, ?_⟩
  · rintro (_ | f) (_ | t) (_ | l) (_ | d) <;>
      simp only [predict_risk_level, buildResults, aggregate_spec,
        List.nil_append, List.append_nil, List.cons_append, List.singleton_append,
        List.foldl_cons, List.foldl_nil, List.map_cons, List.map_nil,
        List.sum_cons, List.sum_nil, riskStep_face, riskStep_typing,
        riskStep_location, riskStep_device] <;>
      norm_num <;>
      ring
  · simp only [predict_risk_level, List.foldl_cons, List.foldl_nil,
      riskStep_face, riskStep_typing, riskStep_location, riskStep_device]
    norm_num
  · simp only [predict_risk_level, List.foldl_cons, List.foldl_nil,
      riskStep_face, riskStep_typing, riskStep_location, riskStep_device]
    norm_num
  · norm_num [predict_risk_level]

/-! ## Theorems: proactive defense (C1, C9) -/

lemma scanLogin_level (s : DefenseState) (a : ActivityData) :
    (scanLogin s a).2 = if loginRuleFires a then 3 else s.threat_level := by
  rcases a with ⟨la, ta, ia⟩
  cases la <;>
    simp only [scanLogin, loginRuleFires, decide_eq_true_eq] <;>
    split_ifs <;> simp_all

lemma scanTxn_level (prev : Option ThreatDetails × Nat) (a : ActivityData)
    (flagged : Bool) :
    (scanTxn prev a flagged).2 = if txnRuleFires a flagged then 2 else prev.2 := by
  rcases a with ⟨la, ta, ia⟩
  cases ta <;>
    simp only [scanTxn, txnRuleFires, Bool.and_eq_true, decide_eq_true_eq] <;>
    split_ifs <;> simp_all

lemma scanIp_level (prev : Option ThreatDetails × Nat) (s : DefenseState)
    (a : ActivityData) :
    (scanIp prev s a).2 = if ipRuleFires a s.blocked_ips then 4 else prev.2 := by
  rcases a with ⟨la, ta, ia⟩
  cases ia <;>
    simp only [scanIp, ipRuleFires, decide_eq_true_eq] <;>
    split_ifs <;> simp_all

lemma scanLogin_none (s : DefenseState) (a : ActivityData)
    (h : (scanLogin s a).1 = none) : scanLogin s a = (none, s.threat_level) := by
  rcases a with ⟨la, ta, ia⟩
  cases la with
  | none => rfl
  | some n =>
      simp only [scanLogin] at h ⊢
      split_ifs at h ⊢ <;> simp_all

lemma scanTxn_none (prev : Option ThreatDetails × Nat) (a : ActivityData)
    (flagged : Bool) (h : (scanTxn prev a flagged).1 = none) :
    scanTxn prev a flagged = prev := by
  rcases a with ⟨la, ta, ia⟩
  cases ta with
  | none => rfl
  | some q =>
      simp only [scanTxn] at h ⊢
      split_ifs at h ⊢ <;> simp_all

lemma scanIp_none (prev : Option ThreatDetails × Nat) (s : DefenseState)
    (a : ActivityData) (h : (scanIp prev s a).1 = none) :
    scanIp prev s a = prev := by
  rcases a with ⟨la, ta, ia⟩
  cases ia with
  | none => rfl
  | some ip =>
      simp only [scanIp] at h ⊢
      split_ifs at h ⊢ <;> simp_all

lemma scans_none_level (s : DefenseState) (a : ActivityData) (flagged : Bool)
    (lvl : Nat)
    (h : scanIp (scanTxn (scanLogin s a) a flagged) s a = (none, lvl)) :
    lvl = s.threat_level := by
  have h3 := scanIp_none (scanTxn (scanLogin s a) a flagged) s a (by rw [h])
  rw [h3] at h
  have h2 := scanTxn_none (scanLogin s a) a flagged (by rw [h])
  rw [h2] at h
  have h1 := scanLogin_none s a (by rw [h])
  rw [h1] at h
  exact (Prod.mk.injEq _ _ _ _ ▸ h).2.symm

lemma detect_threat_level (s : DefenseState) (a : ActivityData) (flagged : Bool) :
    (detect_threat s a flagged).state.threat_level =
      (scanIp (scanTxn (scanLogin s a) a flagged) s a).2 := by
  unfold detect_threat
  rcases h : scanIp (scanTxn (scanLogin s a) a flagged) s a with ⟨det, lvl⟩
  cases det with
  | some d => simp
  | none => simpa using (scans_none_level s a flagged lvl h).symm

/-- C1 (counterexample): the threat level can decrease along a reachable
sequence of `detect_threat` calls.  From the initial state, a brute-force
event (6 login attempts) raises the level to High (3); a following event
with a flagged large transaction assigns the level Medium (2) — the
maximum of the current level and the newly computed one does not win. -/
theorem threat_level_decreases_counterexample :
    (detect_threat initDefense ⟨some 6, none, none⟩ false).state.threat_level = 3 ∧
    (detect_threat (detect_threat initDefense ⟨some 6, none, none⟩ false).state
      ⟨none, some 20000, none⟩ true).state.threat_level = 2 := by
  constructor <;> rfl

/-- C1 (amended): each detection rule assigns its threat level directly —
the IP rule (Critical 4) overrides the transaction rule (Medium 2), which
overrides the login rule (High 3), and an event firing no rule leaves the
level unchanged; consequently the level after a call is either the
previous level or at least Medium, so the level never becomes Low through
`detect_threat`; and the sequential events [6 login attempts] then
[access from the blocked IP] starting from the initial state with that IP
blocked end at level Critical (4). -/
theorem threat_level_evolution :
    (∀ (s : DefenseState) (a : ActivityData) (flagged : Bool),
      (detect_threat s a flagged).state.threat_level =
        (if ipRuleFires a s.blocked_ips then 4
         else if txnRuleFires a flagged then 2
         else if loginRuleFires a then 3
         else s.threat_level)) ∧
    (∀ (s : DefenseState) (a : ActivityData) (flagged : Bool),
      (detect_threat s a flagged).state.threat_level = s.threat_level ∨
        2 ≤ (detect_threat s a flagged).state.threat_level) ∧
    (detect_threat
      (detect_threat (block_access initDefense (some "203.0.113.42")).2
        ⟨some 6, none, none⟩ false).state
      ⟨none, none, some "203.0.113.42"⟩ false).state.threat_level = 4 := by
  have hmain : ∀ (s : DefenseState) (a : ActivityData) (flagged : Bool),
      (detect_threat s a flagged).state.threat_level =
        (if ipRuleFires a s.blocked_ips then 4
         else if txnRuleFires a flagged then 2
         else if loginRuleFires a then 3
         else s.threat_level) := by
    intro s a flagged
    rw [detect_threat_level, scanIp_level, scanTxn_level, scanLogin_level]
  refine ⟨hmain, fun s a flagged => ?_, by rfl⟩
  rw [hmain]
  split_ifs <;> omega

/-- C9: an activity event that fires no detection rule (no more than 5
login attempts, no transaction above 10000, no blocked IP) yields
`threat_detected = false` and returns with the defense state exactly as
before the call. -/
theorem detect_threat_frame (s : DefenseState) (a : ActivityData) (flagged : Bool)
    (hl : ∀ n, a.login_attempts = some n → n ≤ 5)
    (ht : ∀ q, a.transaction_amount = some q → q ≤ 10000)
    (hi : ∀ ip, a.ip_address = some ip → ip ∉ s.blocked_ips) :
    detect_threat s a flagged =
      ⟨false, s.threat_level, none, s.response_plan, s⟩ := by
  have h1 : scanLogin s a = (none, s.threat_level) := by
    cases ha : a.login_attempts with
    | none => simp [scanLogin, ha]
    | some n =>
        simp only [scanLogin, ha]
        rw [if_neg (not_lt.mpr (hl n ha))]
  have h2 : scanTxn (scanLogin s a) a flagged = scanLogin s a := by
    cases ha : a.transaction_amount with
    | none => simp [scanTxn, ha]
    | some q =>
        simp only [scanTxn, ha]
        rw [if_neg (not_lt.mpr (ht q ha))]
  have h3 : scanIp (scanTxn (scanLogin s a) a flagged) s a =
      scanTxn (scanLogin s a) a flagged := by
    cases ha : a.ip_address with
    | none => simp [scanIp, ha]
    | some ip =>
        simp only [scanIp, ha]
        rw [if_neg (hi ip ha)]
  unfold detect_threat
  rw [h3, h2, h1]

/-- Witness for C9 at a concrete benign event against a state with a
non-trivial block list. -/
theorem detect_threat_frame_witness :
    ((∀ n, (ActivityData.mk (some 3) (some 500) (some "2.2.2.2")).login_attempts =
        some n → n ≤ 5) ∧
      (∀ q, (ActivityData.mk (some 3) (some 500) (some "2.2.2.2")).transaction_amount =
        some q → q ≤ 10000) ∧
      (∀ ip, (ActivityData.mk (some 3) (some 500) (some "2.2.2.2")).ip_address =
        some ip → ip ∉ (DefenseState.mk 1 "Standard monitoring" [] ["1.1.1.1"] []).blocked_ips)) ∧
    detect_threat (DefenseState.mk 1 "Standard monitoring" [] ["1.1.1.1"] [])
        (ActivityData.mk (some 3) (some 500) (some "2.2.2.2")) true =
      ⟨false, 1, none, "Standard monitoring",
        DefenseState.mk 1 "Standard monitoring" [] ["1.1.1.1"] []⟩ := by
  have h1 : ∀ n, (ActivityData.mk (some 3) (some 500) (some "2.2.2.2")).login_attempts =
      some n → n ≤ 5 := by
    intro n h
    injection h with h
    omega
  have h2 : ∀ q, (ActivityData.mk (some 3) (some 500) (some "2.2.2.2")).transaction_amount =
      some q → q ≤ 10000 := by
    intro q h
    injection h with h
    rw [← h]
    norm_num
  have h3 : ∀ ip, (ActivityData.mk (some 3) (some 500) (some "2.2.2.2")).ip_address =
      some ip → ip ∉ (DefenseState.mk 1 "Standard monitoring" [] ["1.1.1.1"] []).blocked_ips := by
    intro ip h
    injection h with h
    rw [← h]
    decide
  exact ⟨⟨h1, h2, h3⟩, detect_threat_frame _ _ true h1 h2 h3⟩

/-! ## Theorems: user database (C6, C7, C8) -/

lemma lookupAssoc_set {α : Type} (m : List (String × α)) (k : String) (v : α) :
    lookupAssoc (setAssoc m k v) k = some v := by
  induction m with
  | nil => simp [setAssoc, lookupAssoc]
  | cons e rest ih =>
      rcases e with ⟨k', v'⟩
      by_cases h : k' = k <;> simp [setAssoc, lookupAssoc, h, ih]

/-- C8: for an existing user, adding the same trusted device twice
succeeds both times, and — starting from a well-formed trusted list
holding the fingerprint at most once — leaves the user's trusted list
with exactly one entry for that fingerprint. -/
theorem add_trusted_device_idempotent (db : UserDatabase) (uid device : String)
    (hu : uid ∈ db.users)
    (hcount : ((lookupAssoc db.trusted_devices uid).getD []).count device ≤ 1) :
    (add_trusted_device db uid device).1 = true ∧
    (add_trusted_device (add_trusted_device db uid device).2 uid device).1 = true ∧
    ((lookupAssoc
        (add_trusted_device (add_trusted_device db uid device).2 uid
          device).2.trusted_devices uid).getD []).count device = 1 := by
  set cur := (lookupAssoc db.trusted_devices uid).getD [] with hcur
  set L1 := if device ∈ cur then cur else cur ++ [device] with hL1
  have h1 : add_trusted_device db uid device =
      (true, { db with trusted_devices := setAssoc db.trusted_devices uid L1 }) := by
    rw [add_trusted_device, if_pos hu]
  have hmem : device ∈ L1 := by
    rw [hL1]
    split_ifs with h
    · exact h
    · exact List.mem_append_right _ (List.mem_singleton_self _)
  have h2 : add_trusted_device
        { db with trusted_devices := setAssoc db.trusted_devices uid L1 } uid device =
      (true, { db with
        trusted_devices := setAssoc (setAssoc db.trusted_devices uid L1) uid L1 }) := by
    rw [add_trusted_device]
    simp only [if_pos hu, lookupAssoc_set, Option.getD_some, if_pos hmem]
  have hcnt : L1.count device = 1 := by
    rw [hL1]
    split_ifs with h
    · have hpos : 0 < cur.count device := List.count_pos_iff.mpr h
      omega
    · rw [List.count_append, List.count_eq_zero.mpr h]
      simp
  refine ⟨by rw [h1], ?_, ?_⟩
  · rw [h1, h2]
  · rw [h1, h2]
    simp only [lookupAssoc_set, Option.getD_some]
    exact hcnt

/-- Witness for C8 at a concrete database with one known user and an
empty trusted list. -/
theorem add_trusted_device_idempotent_witness :
    (("7" : String) ∈ (UserDatabase.mk ["7"] [] []).users ∧
      ((lookupAssoc (UserDatabase.mk ["7"] [] []).trusted_devices "7").getD
        []).count "devA" ≤ 1) ∧
    ((add_trusted_device (UserDatabase.mk ["7"] [] []) "7" "devA").1 = true ∧
      (add_trusted_device
        (add_trusted_device (UserDatabase.mk ["7"] [] []) "7" "devA").2 "7"
          "devA").1 = true ∧
      ((lookupAssoc
          (add_trusted_device
            (add_trusted_device (UserDatabase.mk ["7"] [] []) "7" "devA").2 "7"
              "devA").2.trusted_devices "7").getD []).count "devA" = 1) := by
  refine ⟨⟨by decide, by decide⟩, ?_⟩
  exact add_trusted_device_idempotent (UserDatabase.mk ["7"] [] []) "7" "devA"
    (by decide) (by decide)

lemma mem_deviceCheck (db : UserDatabase) (uid : String) (current : CurrentData)
    (s : String) (h : s ∈ deviceCheck db uid current) : s = "Untrusted device" := by
  rcases current with ⟨dev, locF⟩
  cases dev with
  | none => simp [deviceCheck] at h
  | some d =>
      simp only [deviceCheck] at h
      split_ifs at h <;> simp_all

lemma mem_locationCheck_str (db : UserDatabase) (uid : String)
    (current : CurrentData) (s : String) (h : s ∈ locationCheck db uid current) :
    s = "Unusual location" := by
  rcases current with ⟨dev, locF⟩
  cases locF with
  | none => simp [locationCheck] at h
  | some loc =>
      cases hl : lookupAssoc db.historical_logins uid with
      | none => simp [locationCheck, hl] at h
      | some hist =>
          simp only [locationCheck, hl] at h
          split_ifs at h <;> simp_all

lemma mem_timeCheck_str (db : UserDatabase) (uid : String) (currentHour : Nat)
    (s : String) (h : s ∈ timeCheck db uid currentHour) :
    s = "Unusual login time" := by
  cases hl : lookupAssoc db.historical_logins uid with
  | none => simp [timeCheck, hl] at h
  | some hist =>
      simp only [timeCheck, hl] at h
      split_ifs at h <;> simp_all

lemma locationCheck_mem_iff (db : UserDatabase) (uid loc : String)
    (dev : Option String) :
    "Unusual location" ∈ locationCheck db uid ⟨dev, some loc⟩ ↔
      ((lookupAssoc db.historical_logins uid).getD [] ≠ [] ∧
        ∀ r ∈ (lookupAssoc db.historical_logins uid).getD [],
          r.location ≠ some loc) := by
  cases hl : lookupAssoc db.historical_logins uid with
  | none => simp [locationCheck, hl]
  | some hist =>
      simp only [locationCheck, hl, Option.getD_some]
      split_ifs with h
      · constructor
        · intro _
          simp only [List.any_eq_true, decide_eq_true_eq] at h
          exact ⟨List.length_pos.mp h.2, fun r hr hre => h.1 ⟨r, hr, hre⟩⟩
        · intro _
          exact List.mem_singleton_self _
      · constructor
        · intro hmem
          exact absurd hmem (List.not_mem_nil _)
        · rintro ⟨hne, hall⟩
          apply absurd _ h
          constructor
          · simp only [List.any_eq_true, decide_eq_true_eq]
            rintro ⟨r, hr, hre⟩
            exact hall r hr hre
          · exact List.length_pos.mpr hne

lemma timeCheck_mem_iff (db : UserDatabase) (uid : String) (currentHour : Nat) :
    "Unusual login time" ∈ timeCheck db uid currentHour ↔
      (((lookupAssoc db.historical_logins uid).getD []).filterMap
        (fun r => r.tsHour)).count currentHour = 1 := by
  cases hl : lookupAssoc db.historical_logins uid with
  | none => simp [timeCheck, hl]
  | some hist =>
      simp only [timeCheck, hl, Option.getD_some]
      split_ifs with h1 h2 h3
      · have hpos : 0 < (hist.filterMap (fun r => r.tsHour)).count currentHour :=
          List.count_pos_iff.mpr h2.2
        constructor
        · intro _
          omega
        · intro _
          exact List.mem_singleton_self _
      · constructor
        · intro hmem
          exact absurd hmem (List.not_mem_nil _)
        · intro hc
          exact absurd hc (by omega)
      · constructor
        · intro hmem
          exact absurd hmem (List.not_mem_nil _)
        · intro hc
          have hpos : 0 < (hist.filterMap (fun r => r.tsHour)).count currentHour := by
            omega
          have hmem := List.count_pos_iff.mp hpos
          exact absurd ⟨List.ne_nil_of_mem hmem, hmem⟩ h2
      · constructor
        · intro hmem
          exact absurd hmem (List.not_mem_nil _)
        · intro hc
          have hnil : hist = [] := List.length_eq_zero.mp (by omega)
          subst hnil
          simp at hc

lemma compare_anomalies (db : UserDatabase) (uid : String) (current : CurrentData)
    (currentHour : Nat) (hu : uid ∈ db.users) :
    (compare_with_current db uid current currentHour).anomalies =
      deviceCheck db uid current ++ locationCheck db uid current ++
        timeCheck db uid currentHour := by
  rw [compare_with_current, if_pos hu]

lemma compare_suspicious (db : UserDatabase) (uid : String) (current : CurrentData)
    (currentHour : Nat) (hu : uid ∈ db.users) :
    (compare_with_current db uid current currentHour).is_suspicious =
      decide (1 < (compare_with_current db uid current currentHour).anomalies.length) := by
  rw [compare_with_current, if_pos hu]

/-- C7: for an existing user and a present current location, the
`"Unusual location"` anomaly fires exactly when the login history is
non-empty and no historical record carries exactly the current location
string; and the result is suspicious exactly when more than one anomaly
fired. -/
theorem unusual_location_characterization (db : UserDatabase) (uid : String)
    (dev : Option String) (loc : String) (currentHour : Nat)
    (hu : uid ∈ db.users) :
    ("Unusual location" ∈
        (compare_with_current db uid ⟨dev, some loc⟩ currentHour).anomalies ↔
      ((lookupAssoc db.historical_logins uid).getD [] ≠ [] ∧
        ∀ r ∈ (lookupAssoc db.historical_logins uid).getD [],
          r.location ≠ some loc)) ∧
    ((compare_with_current db uid ⟨dev, some loc⟩ currentHour).is_suspicious = true ↔
      1 < (compare_with_current db uid ⟨dev, some loc⟩ currentHour).anomalies.length) := by
  constructor
  · rw [compare_anomalies db uid _ currentHour hu]
    simp only [List.mem_append]
    constructor
    · rintro ((h | h) | h)
      · exact absurd (mem_deviceCheck _ _ _ _ h) (by decide)
      · exact (locationCheck_mem_iff db uid loc dev).mp h
      · exact absurd (mem_timeCheck_str _ _ _ _ h) (by decide)
    · intro h
      exact Or.inl (Or.inr ((locationCheck_mem_iff db uid loc dev).mpr h))
  · rw [compare_suspicious db uid _ currentHour hu]
    simp [decide_eq_true_eq]

/-- Witness for C7: a user with history at locations `"A"` and `"B"`
logging in from `"C"` gets the location anomaly, and from `"A"` gets
none. -/
theorem unusual_location_characterization_witness :
    (("7" : String) ∈ (UserDatabase.mk ["7"] []
        [("7", [LoginRecord.mk (some 10) (some "A"),
                LoginRecord.mk (some 11) (some "B")])]).users) ∧
    ("Unusual location" ∈
        (compare_with_current (UserDatabase.mk ["7"] []
          [("7", [LoginRecord.mk (some 10) (some "A"),
                  LoginRecord.mk (some 11) (some "B")])]) "7"
          ⟨none, some "C"⟩ 10).anomalies ↔
      ((lookupAssoc (UserDatabase.mk ["7"] []
          [("7", [LoginRecord.mk (some 10) (some "A"),
                  LoginRecord.mk (some 11) (some "B")])]).historical_logins
          "7").getD [] ≠ [] ∧
        ∀ r ∈ (lookupAssoc (UserDatabase.mk ["7"] []
          [("7", [LoginRecord.mk (some 10) (some "A"),
                  LoginRecord.mk (some 11) (some "B")])]).historical_logins
          "7").getD [], r.location ≠ some "C")) ∧
    "Unusual location" ∈
      (compare_with_current (UserDatabase.mk ["7"] []
        [("7", [LoginRecord.mk (some 10) (some "A"),
                LoginRecord.mk (some 11) (some "B")])]) "7"
        ⟨none, some "C"⟩ 10).anomalies ∧
    "Unusual location" ∉
      (compare_with_current (UserDatabase.mk ["7"] []
        [("7", [LoginRecord.mk (some 10) (some "A"),
                LoginRecord.mk (some 11) (some "B")])]) "7"
        ⟨none, some "A"⟩ 10).anomalies :=
  ⟨by decide,
   (unusual_location_characterization (UserDatabase.mk ["7"] []
      [("7", [LoginRecord.mk (some 10) (some "A"),
              LoginRecord.mk (some 11) (some "B")])]) "7" none "C" 10
      (by decide)).1,
   by decide, by decide⟩

/-- C6 (counterexample): a user with one historical login at hour 10,
evaluated at current hour 3 — the current hour has zero prior occurrences
(fewer than 2), yet no `"Unusual login time"` anomaly is raised, because
the code additionally requires the current hour to occur in the bucket
table. -/
theorem unusual_login_time_counterexample :
    ((lookupAssoc (UserDatabase.mk ["7"] []
        [("7", [LoginRecord.mk (some 10) (some "A")])]).historical_logins
        "7").getD []).length = 1 ∧
    (((lookupAssoc (UserDatabase.mk ["7"] []
        [("7", [LoginRecord.mk (some 10) (some "A")])]).historical_logins
        "7").getD []).filterMap (fun r => r.tsHour)).count 3 = 0 ∧
    "Unusual login time" ∉
      (compare_with_current (UserDatabase.mk ["7"] []
        [("7", [LoginRecord.mk (some 10) (some "A")])]) "7"
        ⟨none, none⟩ 3).anomalies := by
  decide

/-- C6 (amended): for an existing user, the `"Unusual login time"`
anomaly fires exactly when the current hour-of-day occurs exactly once
among the historical logins bucketed by hour (zero prior occurrences at
that hour raise no tag); in particular a user with zero history never
gets a time anomaly. -/
theorem unusual_login_time_characterization (db : UserDatabase) (uid : String)
    (current : CurrentData) (currentHour : Nat) (hu : uid ∈ db.users) :
    "Unusual login time" ∈
        (compare_with_current db uid current currentHour).anomalies ↔
      (((lookupAssoc db.historical_logins uid).getD []).filterMap
        (fun r => r.tsHour)).count currentHour = 1 := by
  rw [compare_anomalies db uid current currentHour hu]
  simp only [List.mem_append]
  constructor
  · rintro ((h | h) | h)
    · exact absurd (mem_deviceCheck _ _ _ _ h) (by decide)
    · exact absurd (mem_locationCheck_str _ _ _ _ h) (by decide)
    · exact (timeCheck_mem_iff db uid currentHour).mp h
  · intro h
    exact Or.inr ((timeCheck_mem_iff db uid currentHour).mpr h)

/-- Witness for C6 at a concrete database: a user with two historical
logins at hour 10 evaluated at hour 10 (count 2, no tag by the iff). -/
theorem unusual_login_time_characterization_witness :
    (("7" : String) ∈ (UserDatabase.mk ["7"] []
        [("7", [LoginRecord.mk (some 10) (some "A"),
                LoginRecord.mk (some 10) (some "B")])]).users) ∧
    ("Unusual login time" ∈
        (compare_with_current (UserDatabase.mk ["7"] []
          [("7", [LoginRecord.mk (some 10) (some "A"),
                  LoginRecord.mk (some 10) (some "B")])]) "7"
          ⟨none, none⟩ 10).anomalies ↔
      (((lookupAssoc (UserDatabase.mk ["7"] []
          [("7", [LoginRecord.mk (some 10) (some "A"),
                  LoginRecord.mk (some 10) (some "B")])]).historical_logins
          "7").getD []).filterMap (fun r => r.tsHour)).count 10 = 1) :=
  ⟨by decide,
   unusual_login_time_characterization (UserDatabase.mk ["7"] []
      [("7", [LoginRecord.mk (some 10) (some "A"),
              LoginRecord.mk (some 10) (some "B")])]) "7" ⟨none, none⟩ 10
      (by decide)⟩

end Banking
